import Mathlib

/-!
Shallow embedding of the potatis NES synchronizer (`nes/src/nes.rs`) and of the
memory system of the Pong demo program (`pong/src/main.rs`).

The CPU machine (`Mos6502`), the PPU, the joypad and the host system live in
other crates of the repository; the synchronizer only drives them through a
narrow interface, so they are abstracted here as type parameters together with
a record of operations (`NesOps`).  The synchronizer logic itself
(`Nes::tick`, `Nes::insert`, `FrameTiming`, the `Debug` formatter) is
transliterated from the source.  `Nes.tick` additionally returns the ordered
list of observable calls it makes (an `Effect` trace), so that ordering and
exactly-once properties of the host protocol can be stated.
-/

/-- Rust usize modulus on 64-bit targets. -/
def USIZE : Nat := 18446744073709551616

/-- Wrapping usize subtraction, as Rust release builds compute a - b. -/
def usizeSub (a b : Nat) : Nat := (a + (USIZE - b % USIZE)) % USIZE

/-- nes.rs: pub enum Shutdown { Yes, No, Reset } -/
inductive Shutdown
  | yes
  | no
  | reset
deriving DecidableEq

/-- ppu.rs TickEvent as used by nes.rs: the PPU tick reports nothing, that
VBlank was entered, or that the mapper asserted an IRQ. -/
inductive TickEvent
  | nothing
  | enteredVblank
  | triggerIrq
deriving DecidableEq

/-- The observable calls one `Nes::tick` makes, in program order. -/
inductive Effect
  | cpuTick (cycles : Nat)
  | ppuTick (dots : Nat)
  | drawFps
  | render
  | pollEvents (result : Shutdown)
  | delay (ms : Nat)
  | nmi
  | irq
  | cpuReset
deriving DecidableEq

/-- nes.rs: const DEFAULT_FPS_MAX: usize = 60 -/
def DEFAULT_FPS_MAX : Nat := 60

/-- nes.rs: struct FrameTiming -/
structure FrameTiming where
  frame_n : Nat
  last_frame_timestamp : Nat
  frame_limit_ms : Nat
deriving DecidableEq

def FrameTiming.new : FrameTiming :=
  { frame_n := 0, last_frame_timestamp := 0, frame_limit_ms := 1000 / DEFAULT_FPS_MAX }

def FrameTiming.fps_max (t : FrameTiming) (fpsMax : Nat) : FrameTiming :=
  { t with frame_limit_ms := 1000 / fpsMax }

def FrameTiming.fps_avg (t : FrameTiming) (elapsed : Nat) : Nat :=
  let secs := elapsed / 1000
  if secs ≠ 0 then t.frame_n / secs else 0

/-- nes.rs FrameTiming::post_render: when a previous frame timestamp exists and
the frame took less than the target period, the remaining interval to delay. -/
def FrameTiming.post_render (t : FrameTiming) (elapsed : Nat) : Option Nat :=
  if t.last_frame_timestamp ≠ 0 then
    let msToRenderFrame := usizeSub elapsed t.last_frame_timestamp
    if msToRenderFrame < t.frame_limit_ms then
      some (t.frame_limit_ms - msToRenderFrame)
    else
      none
  else
    none

def FrameTiming.post_delay (t : FrameTiming) (elapsed : Nat) : FrameTiming :=
  { t with frame_n := t.frame_n + 1, last_frame_timestamp := elapsed }

/-- The operations `Nes::tick` invokes on the CPU machine (M), PPU (P),
joypad (J) and host (H).  `machineTick` executes one CPU instruction and
returns the consumed cycle count; since the bus of the CPU holds shared handles to
the PPU and joypad, the instruction may also update them. -/
structure NesOps (M P J H : Type) where
  machineTick : M → P → J → M × P × J × Nat
  cpuNmi : M → M
  cpuIrq : M → M
  cpuReset : M → M
  ppuTick : P → Nat → P × TickEvent
  nmiOnVblank : P → Bool
  drawFps : P → Nat → P
  render : H → P → H
  pollEvents : H → J → H × J × Shutdown
  elapsedMillis : H → Nat
  delay : H → Nat → H

/-- nes.rs: pub struct Nes -/
structure Nes (M P J H : Type) where
  machine : M
  ppu : P
  joypad : J
  host : H
  timing : FrameTiming
  shutdown : Shutdown

/-- The body of the `if ppu_event == TickEvent::EnteredVblank` block of
`Nes::tick`: optional FPS overlay, render, poll_events, conditional frame
delay, timestamping, conditional NMI. -/
def Nes.vblankStep {M P J H : Type} (ops : NesOps M P J H) (showFps : Bool)
    (m1 : M) (p2 : P) (j1 : J) (host : H) (timing : FrameTiming) :
    M × P × J × H × FrameTiming × Shutdown × List Effect :=
  let p3 := if showFps then ops.drawFps p2 (timing.fps_avg (ops.elapsedMillis host)) else p2
  let fpsFx : List Effect := if showFps then [Effect.drawFps] else []
  let h1 := ops.render host p3
  let pe := ops.pollEvents h1 j1
  let h2 := pe.1
  let j2 := pe.2.1
  let sd := pe.2.2
  let dOpt := timing.post_render (ops.elapsedMillis h2)
  let h3 := match dOpt with
    | some d => ops.delay h2 d
    | none => h2
  let delayFx : List Effect := match dOpt with
    | some d => [Effect.delay d]
    | none => []
  let t2 := timing.post_delay (ops.elapsedMillis h3)
  let m2 := if ops.nmiOnVblank p3 then ops.cpuNmi m1 else m1
  let nmiFx : List Effect := if ops.nmiOnVblank p3 then [Effect.nmi] else []
  (m2, p3, j2, h3, t2, sd,
    fpsFx ++ Effect.render :: Effect.pollEvents sd :: (delayFx ++ nmiFx))

/-- nes.rs Nes::tick, returning the successor state and the trace of
observable calls in the order the source makes them. -/
def Nes.tick {M P J H : Type} (ops : NesOps M P J H) (showFps : Bool) (n : Nes M P J H) :
    Nes M P J H × List Effect :=
  let r0 := ops.machineTick n.machine n.ppu n.joypad
  let m1 := r0.1
  let p1 := r0.2.1
  let j1 := r0.2.2.1
  let cpuCycles := r0.2.2.2
  let pr := ops.ppuTick p1 (cpuCycles * 3)
  let p2 := pr.1
  let ppuEvent := pr.2
  let s :=
    if ppuEvent = TickEvent.enteredVblank then
      Nes.vblankStep ops showFps m1 p2 j1 n.host n.timing
    else
      (m1, p2, j1, n.host, n.timing, n.shutdown, ([] : List Effect))
  let m2 := s.1
  let p3 := s.2.1
  let j2 := s.2.2.1
  let h3 := s.2.2.2.1
  let t2 := s.2.2.2.2.1
  let sd1 := s.2.2.2.2.2.1
  let fx1 := s.2.2.2.2.2.2
  let m3 := if ppuEvent = TickEvent.triggerIrq then ops.cpuIrq m2 else m2
  let irqFx : List Effect := if ppuEvent = TickEvent.triggerIrq then [Effect.irq] else []
  let m4 := if sd1 = Shutdown.reset then ops.cpuReset m3 else m3
  let sd2 := if sd1 = Shutdown.reset then Shutdown.no else sd1
  let resetFx : List Effect := if sd1 = Shutdown.reset then [Effect.cpuReset] else []
  ({ machine := m4, ppu := p3, joypad := j2, host := h3, timing := t2, shutdown := sd2 },
   Effect.cpuTick cpuCycles :: Effect.ppuTick (cpuCycles * 3) :: (fx1 ++ irqFx ++ resetFx))

/-- nes.rs Nes::powered_on: self.shutdown != Shutdown::Yes -/
def Nes.powered_on {M P J H : Type} (n : Nes M P J H) : Bool :=
  decide (n.shutdown ≠ Shutdown.yes)

/-- Modelled from the spec: the mos6502 crate (not under src/) wraps the CPU in
a machine that exposes a monotonically increasing cycle counter (spec 4.1, 4.5).
The counter starts at zero at construction (the nestest trace of spec 8 opens at
CYC:7, exactly the 7 startup cycles credited by `Nes::insert`), and
`inc_cycles` adds to it. -/
structure Mos6502Model (C : Type) where
  cpu : C
  cycles : Nat

def Mos6502Model.new {C : Type} (cpu : C) : Mos6502Model C :=
  { cpu := cpu, cycles := 0 }

def Mos6502Model.inc_cycles {C : Type} (m : Mos6502Model C) (n : Nat) : Mos6502Model C :=
  { m with cycles := m.cycles + n }

/-- The constructors `Nes::insert` invokes: a fresh CPU wired to the freshly
built NES bus, the CPU reset routine, a fresh PPU and a default joypad. -/
structure InsertOps (C P J : Type) where
  newCpu : C
  cpuReset : C → C
  newPpu : P
  newJoypad : J

/-- nes.rs Nes::insert: build the bus, reset the CPU, wrap it in the machine,
credit 7 startup cycles, start with default timing and Shutdown::No. -/
def Nes.insert {C P J H : Type} (ops : InsertOps C P J) (host : H) :
    Nes (Mos6502Model C) P J H :=
  let cpu := ops.cpuReset ops.newCpu
  let machine := (Mos6502Model.new cpu).inc_cycles 7
  { machine := machine, ppu := ops.newPpu, joypad := ops.newJoypad, host := host,
    timing := FrameTiming.new, shutdown := Shutdown.no }

/-! ### The Debug (nestest trace) formatter of nes.rs -/

/-- Decimal digit character. -/
def decChar (d : Nat) : Char := Char.ofNat (48 + d)

/-- Decimal rendering of a natural number, most significant digit first
(model of the Rust Display rendering for unsigned integers). -/
def decList (n : Nat) : List Char :=
  if n < 10 then [decChar n]
  else decList (n / 10) ++ [decChar (n % 10)]
termination_by n
decreasing_by exact Nat.div_lt_self (by omega) (by omega)

def decStr (n : Nat) : String := String.mk (decList n)

/-- Upper-case hex digit character. -/
def hexChar (d : Nat) : Char :=
  if d < 10 then Char.ofNat (48 + d) else Char.ofNat (55 + d)

/-- Upper-case hex rendering, most significant digit first. -/
def hexList (n : Nat) : List Char :=
  if n < 16 then [hexChar n]
  else hexList (n / 16) ++ [hexChar (n % 16)]
termination_by n
decreasing_by exact Nat.div_lt_self (by omega) (by omega)

/-- Rust format specifier 0wX: zero-padded upper-case hex of width w, as a
character list. -/
def hexPadL (w n : Nat) : List Char :=
  List.replicate (w - (hexList n).length) '0' ++ hexList n

/-- Rust right justification to width w with space padding ({:w} on integers,
{:>w}), as a character list. -/
def rjustL (w : Nat) (s : List Char) : List Char :=
  List.replicate (w - s.length) ' ' ++ s

/-- The inputs of the Debug impl for Nes: CPU registers, PPU scanline, the
internal cycle value of the PPU, and the cumulative cycle counter of the machine. -/
structure NesDebugState where
  pc : Nat
  a : Nat
  x : Nat
  y : Nat
  p : Nat
  sp : Nat
  scanline : Nat
  ppuCycleRaw : Nat
  cycles : Nat

/-- The part of the trace line shared by both branches of the Debug impl. -/
def nesDebugPreL (pc a x y p sp : Nat) : List Char :=
  hexPadL 4 pc ++ " A:".toList ++ hexPadL 2 a ++ " X:".toList ++ hexPadL 2 x ++
    " Y:".toList ++ hexPadL 2 y ++ " P:".toList ++ hexPadL 2 p ++ " SP:".toList ++
    hexPadL 2 sp ++ " PPU:".toList

/-- The line written by the Debug impl of Nes: the source branches on whether
the displayed dot value is below 100, writing comma-space before a width-2
field in the small case and a bare comma before a width-2 field in the large
case; the scanline width ppuw is 3. -/
def nesDebugLineL (pc a x y p sp scanline dot cyc : Nat) : List Char :=
  if dot < 100 then
    nesDebugPreL pc a x y p sp ++ rjustL 3 (decList scanline) ++ ", ".toList ++
      rjustL 2 (decList dot) ++ " CYC:".toList ++ decList cyc
  else
    nesDebugPreL pc a x y p sp ++ rjustL 3 (decList scanline) ++ ",".toList ++
      rjustL 2 (decList dot) ++ " CYC:".toList ++ decList cyc

def nesDebugLine (pc a x y p sp scanline dot cyc : Nat) : String :=
  String.mk (nesDebugLineL pc a x y p sp scanline dot cyc)

/-- The Debug impl applied to a Nes: the displayed dot value is the internal
PPU cycle plus 21. -/
def nesDebugFmt (s : NesDebugState) : String :=
  nesDebugLine s.pc s.a s.x s.y s.p s.sp s.scanline (s.ppuCycleRaw + 21) s.cycles

/-- The trace line as the spec describes it (spec 6): one uniform shape with
the scanline field right-justified to width 3 and the dot field right-justified
to width 3. -/
def nesDebugSpecFmt (s : NesDebugState) : String :=
  String.mk (nesDebugPreL s.pc s.a s.x s.y s.p s.sp ++ rjustL 3 (decList s.scanline) ++
    ",".toList ++ rjustL 3 (decList (s.ppuCycleRaw + 21)) ++ " CYC:".toList ++
    decList s.cycles)

/-! ### The Pong demo memory system of pong/src/main.rs

Fallible operations return Option; a Rust panic is modelled as none. -/

def WIDTH : Nat := 240
def HEIGHT : Nat := 192

inductive DisplayPort
  | portX
  | portY
  | portColor
  | portCommand
deriving DecidableEq

/-- main.rs DisplayPort::from_u16; an invalid port value panics. -/
def DisplayPort.from_u16 (val : Nat) : Option DisplayPort :=
  match val with
  | 0 => some DisplayPort.portX
  | 1 => some DisplayPort.portY
  | 2 => some DisplayPort.portColor
  | 3 => some DisplayPort.portCommand
  | _ => none

inductive DisplayCommand
  | nop
  | draw
  | clear
  | flush
deriving DecidableEq

/-- main.rs DisplayCommand::from_u8; an invalid command value panics. -/
def DisplayCommand.from_u8 (val : Nat) : Option DisplayCommand :=
  match val with
  | 0 => some DisplayCommand.nop
  | 1 => some DisplayCommand.draw
  | 2 => some DisplayCommand.clear
  | 3 => some DisplayCommand.flush
  | _ => none

/-- main.rs struct DisplayBuffer; the WIDTH*HEIGHT byte array is represented
by its indexing function. -/
structure DisplayBuffer where
  buffer : Nat → Nat
  port_x : Nat
  port_y : Nat
  port_color : Nat
  port_command : Nat
  was_updated : Bool

def DisplayBuffer.new : DisplayBuffer :=
  { buffer := fun _ => 0, port_x := 0, port_y := 0, port_color := 0, port_command := 0,
    was_updated := false }

/-- main.rs DisplayBuffer::read8 unconditionally panics. -/
def DisplayBuffer.read8 (_ : DisplayBuffer) (_ : Nat) : Option Nat := none

/-- main.rs DisplayBuffer::draw: buffer[y * WIDTH + x] = color, panicking when
the index is outside the array. -/
def DisplayBuffer.draw (d : DisplayBuffer) : Option DisplayBuffer :=
  let x := d.port_x
  let y := d.port_y
  let i := y * WIDTH + x
  if i < WIDTH * HEIGHT then
    some { d with buffer := fun j => if j = i then d.port_color else d.buffer j }
  else
    none

def DisplayBuffer.clear (d : DisplayBuffer) : DisplayBuffer :=
  { d with buffer := fun _ => 0 }

/-- main.rs DisplayBuffer::write8: store the value in the addressed port, then
dispatch on the (possibly just written) command port, then clear it. -/
def DisplayBuffer.write8 (d : DisplayBuffer) (val address : Nat) : Option DisplayBuffer :=
  match DisplayPort.from_u16 address with
  | none => none
  | some port =>
    let d1 :=
      match port with
      | DisplayPort.portX => { d with port_x := val }
      | DisplayPort.portY => { d with port_y := val }
      | DisplayPort.portColor => { d with port_color := val }
      | DisplayPort.portCommand => { d with port_command := val }
    match DisplayCommand.from_u8 d1.port_command with
    | none => none
    | some cmd =>
      let d2 :=
        match cmd with
        | DisplayCommand.draw => d1.draw
        | DisplayCommand.flush => some { d1 with was_updated := true }
        | DisplayCommand.clear => some d1.clear
        | DisplayCommand.nop => some d1
      match d2 with
      | none => none
      | some d3 => some { d3 with port_command := 0 }

/-- main.rs: struct Rom holds a 0x5a80-byte array. -/
def ROM_SIZE : Nat := 0x5a80

structure Rom where
  rom : Nat → Nat

/-- main.rs Rom::read8: self.rom[address], panicking outside the array. -/
def Rom.read8 (r : Rom) (address : Nat) : Option Nat :=
  if address < ROM_SIZE then some (r.rom address) else none

inductive MemoryMap
  | ram
  | display
  | rom

/-- main.rs struct PongBus; the 0x8000-byte RAM is its indexing function. -/
structure PongBus where
  ram : Nat → Nat
  display : DisplayBuffer
  rom : Rom

/-- main.rs PongBus::map_address over the u16 address space. -/
def PongBus.map_address (address : Nat) : MemoryMap × Nat :=
  if address ≤ 0x7FFF then (MemoryMap.ram, address)
  else if address ≤ 0xA57F then (MemoryMap.display, address - 0x8000)
  else (MemoryMap.rom, address - 0xA580)

def PongBus.read8 (b : PongBus) (address : Nat) : Option Nat :=
  match PongBus.map_address address with
  | (MemoryMap.ram, m) => if m < 0x8000 then some (b.ram m) else none
  | (MemoryMap.display, m) => b.display.read8 m
  | (MemoryMap.rom, m) => b.rom.read8 m

/-- main.rs PongBus::write8 (Bus impl): RAM writes store, display writes go to
the display buffer, ROM writes panic with "cannot write to ROM". -/
def PongBus.write8 (b : PongBus) (val address : Nat) : Option PongBus :=
  match PongBus.map_address address with
  | (MemoryMap.ram, m) =>
    if m < 0x8000 then some { b with ram := fun j => if j = m then val else b.ram j }
    else none
  | (MemoryMap.display, m) =>
    match b.display.write8 val m with
    | some d => some { b with display := d }
    | none => none
  | (MemoryMap.rom, _) => none

/-! ### Concrete instantiations used by witnesses and scenario proofs -/

/-- A concrete host/machine instantiation over Nat state: every instruction
takes 2 cycles, the PPU tick always reports the given event, polling always
returns the given Shutdown, and the host clock advances 5 ms per rendered
frame (the stub host of spec scenario 6). -/
def demoOps (ev : TickEvent) (sd : Shutdown) : NesOps Nat Nat Nat Nat :=
  { machineTick := fun m p j => (m + 1, p, j, 2)
    cpuNmi := fun m => m + 100
    cpuIrq := fun m => m + 200
    cpuReset := fun _ => 0
    ppuTick := fun p dots => (p + dots, ev)
    nmiOnVblank := fun _ => false
    drawFps := fun p _ => p
    render := fun h _ => h + 5
    pollEvents := fun h j => (h, j, sd)
    elapsedMillis := fun h => h
    delay := fun h _ => h }

def nes0 : Nes Nat Nat Nat Nat :=
  { machine := 0, ppu := 0, joypad := 0, host := 0, timing := FrameTiming.new,
    shutdown := Shutdown.no }

/-- Spec scenario 6: every tick completes a frame and the wall clock advances
5 ms per frame. -/
def stubOps : NesOps Nat Nat Nat Nat := demoOps TickEvent.enteredVblank Shutdown.no

/-- The machine after k ticks of the scenario-6 stub. -/
def stubNes : Nat → Nes Nat Nat Nat Nat
  | 0 => nes0
  | k + 1 => (Nes.tick stubOps false (stubNes k)).1

/-! ### Evaluation lemmas for Nes.tick, shared by the claim theorems -/

/-- When the PPU tick does not report EnteredVblank, one Nes::tick reduces to
the CPU step, the PPU credit, the optional IRQ and the reset consumption. -/
theorem tick_eq_nonvblank {M P J H : Type} (ops : NesOps M P J H) (showFps : Bool)
    (n : Nes M P J H) (m1 : M) (p1 : P) (j1 : J) (c : Nat) (p2 : P) (ev : TickEvent)
    (hm : ops.machineTick n.machine n.ppu n.joypad = (m1, p1, j1, c))
    (hp : ops.ppuTick p1 (c * 3) = (p2, ev))
    (hne : ev ≠ TickEvent.enteredVblank) :
    Nes.tick ops showFps n =
      ({ machine :=
           if n.shutdown = Shutdown.reset then
             ops.cpuReset (if ev = TickEvent.triggerIrq then ops.cpuIrq m1 else m1)
           else (if ev = TickEvent.triggerIrq then ops.cpuIrq m1 else m1),
         ppu := p2, joypad := j1, host := n.host, timing := n.timing,
         shutdown := if n.shutdown = Shutdown.reset then Shutdown.no else n.shutdown },
       Effect.cpuTick c :: Effect.ppuTick (c * 3) ::
         ((if ev = TickEvent.triggerIrq then [Effect.irq] else []) ++
          (if n.shutdown = Shutdown.reset then [Effect.cpuReset] else []))) := by
  cases ev with
  | enteredVblank => exact absurd rfl hne
  | nothing => rcases hsd : n.shutdown <;> simp [Nes.tick, hm, hp, hsd]
  | triggerIrq => rcases hsd : n.shutdown <;> simp [Nes.tick, hm, hp, hsd]

/-- When the PPU tick reports EnteredVblank, one Nes::tick reduces to the CPU
step, the PPU credit and the full host hand-off sequence. -/
theorem tick_eq_vblank {M P J H : Type} (ops : NesOps M P J H) (showFps : Bool)
    (n : Nes M P J H) (m1 : M) (p1 : P) (j1 : J) (c : Nat) (p2 p3 : P)
    (h2 : H) (j2 : J) (sd : Shutdown)
    (hm : ops.machineTick n.machine n.ppu n.joypad = (m1, p1, j1, c))
    (hp : ops.ppuTick p1 (c * 3) = (p2, TickEvent.enteredVblank))
    (hfps : p3 = if showFps then
      ops.drawFps p2 (n.timing.fps_avg (ops.elapsedMillis n.host)) else p2)
    (hpe : ops.pollEvents (ops.render n.host p3) j1 = (h2, j2, sd)) :
    Nes.tick ops showFps n =
      (let dOpt := n.timing.post_render (ops.elapsedMillis h2)
       let h3 := match dOpt with | some d => ops.delay h2 d | none => h2
       ({ machine :=
            if sd = Shutdown.reset then
              ops.cpuReset (if ops.nmiOnVblank p3 then ops.cpuNmi m1 else m1)
            else (if ops.nmiOnVblank p3 then ops.cpuNmi m1 else m1),
          ppu := p3, joypad := j2, host := h3,
          timing := n.timing.post_delay (ops.elapsedMillis h3),
          shutdown := if sd = Shutdown.reset then Shutdown.no else sd },
        Effect.cpuTick c :: Effect.ppuTick (c * 3) ::
          ((if showFps then [Effect.drawFps] else []) ++
           Effect.render :: Effect.pollEvents sd ::
             ((match dOpt with | some d => [Effect.delay d] | none => []) ++
              (if ops.nmiOnVblank p3 then [Effect.nmi] else []) ++
              (if sd = Shutdown.reset then [Effect.cpuReset] else []))))) := by
  simp only [Nes.tick, Nes.vblankStep, hm, hp, ← hfps, hpe]
  rcases hd : n.timing.post_render (ops.elapsedMillis h2) with _ | d <;>
    rcases hnmi : ops.nmiOnVblank p3 <;>
    rcases hsd : sd <;>
    simp [hd, hnmi, hsd]

/-- C1: every Nes::tick first retires one CPU instruction of c cycles and then
advances the PPU by exactly c*3 dots; the PPU tick is applied to the PPU state
left behind by the instruction, so the dots observe the writes of that instruction. -/
theorem tick_credits_ppu_three_dots_per_cycle {M P J H : Type} (ops : NesOps M P J H)
    (showFps : Bool) (n : Nes M P J H) (m1 : M) (p1 : P) (j1 : J) (c : Nat)
    (hm : ops.machineTick n.machine n.ppu n.joypad = (m1, p1, j1, c)) :
    (∃ rest, (Nes.tick ops showFps n).2 = Effect.cpuTick c :: Effect.ppuTick (c * 3) :: rest) ∧
    (showFps = false → (Nes.tick ops showFps n).1.ppu = (ops.ppuTick p1 (c * 3)).1) := by
  constructor
  · simp only [Nes.tick, hm]
    exact ⟨_, rfl⟩
  · intro hs
    subst hs
    rcases hp : ops.ppuTick p1 (c * 3) with ⟨p2, ev⟩
    cases ev <;> simp [Nes.tick, Nes.vblankStep, hm, hp]

theorem tick_credits_ppu_three_dots_per_cycle_w :
    (∃ rest, (Nes.tick (demoOps TickEvent.nothing Shutdown.no) false nes0).2 =
      Effect.cpuTick 2 :: Effect.ppuTick (2 * 3) :: rest) ∧
    (false = false → (Nes.tick (demoOps TickEvent.nothing Shutdown.no) false nes0).1.ppu =
      ((demoOps TickEvent.nothing Shutdown.no).ppuTick 0 (2 * 3)).1) :=
  tick_credits_ppu_three_dots_per_cycle (demoOps TickEvent.nothing Shutdown.no) false nes0
    1 0 0 2 rfl

/-- C2: on EnteredVblank the tick calls render, then poll_events, then the
conditional delay, then raises the NMI exactly when nmi_on_vblank holds, in
that order; on any other event none of render, poll_events or delay occurs. -/
theorem tick_vblank_host_order {M P J H : Type} (ops : NesOps M P J H) (showFps : Bool)
    (n : Nes M P J H) (m1 : M) (p1 : P) (j1 : J) (c : Nat)
    (hm : ops.machineTick n.machine n.ppu n.joypad = (m1, p1, j1, c)) :
    (∀ (p2 : P) (h2 : H) (j2 : J) (sd : Shutdown),
      ops.ppuTick p1 (c * 3) = (p2, TickEvent.enteredVblank) →
      showFps = false →
      ops.pollEvents (ops.render n.host p2) j1 = (h2, j2, sd) →
      (Nes.tick ops showFps n).2 =
        Effect.cpuTick c :: Effect.ppuTick (c * 3) :: Effect.render :: Effect.pollEvents sd ::
          ((match n.timing.post_render (ops.elapsedMillis h2) with
            | some d => [Effect.delay d]
            | none => []) ++
           (if ops.nmiOnVblank p2 then [Effect.nmi] else []) ++
           (if sd = Shutdown.reset then [Effect.cpuReset] else []))) ∧
    (∀ (p2 : P) (ev : TickEvent),
      ops.ppuTick p1 (c * 3) = (p2, ev) →
      ev ≠ TickEvent.enteredVblank →
      Effect.render ∉ (Nes.tick ops showFps n).2 ∧
      (∀ s, Effect.pollEvents s ∉ (Nes.tick ops showFps n).2) ∧
      (∀ d, Effect.delay d ∉ (Nes.tick ops showFps n).2)) := by
  constructor
  · intro p2 h2 j2 sd hp hs hpe
    subst hs
    rw [tick_eq_vblank ops false n m1 p1 j1 c p2 p2 h2 j2 sd hm hp (by simp) hpe]
    simp
  · intro p2 ev hp hne
    rw [tick_eq_nonvblank ops showFps n m1 p1 j1 c p2 ev hm hp hne]
    cases ev <;> rcases hsd : n.shutdown <;> simp

theorem tick_vblank_host_order_w :
    (Nes.tick (demoOps TickEvent.enteredVblank Shutdown.no) false nes0).2 =
      Effect.cpuTick 2 :: Effect.ppuTick (2 * 3) :: Effect.render ::
        Effect.pollEvents Shutdown.no ::
        ((match FrameTiming.new.post_render 5 with
          | some d => [Effect.delay d]
          | none => []) ++
         (if (demoOps TickEvent.enteredVblank Shutdown.no).nmiOnVblank 6 then [Effect.nmi]
          else []) ++
         (if Shutdown.no = Shutdown.reset then [Effect.cpuReset] else [])) :=
  (tick_vblank_host_order (demoOps TickEvent.enteredVblank Shutdown.no) false nes0 1 0 0 2
    rfl).1 6 5 0 Shutdown.no rfl rfl rfl

/-- C6: after any tick the stored shutdown flag is never Reset; a tick whose
PPU event is not EnteredVblank calls poll_events on no argument and leaves the
shutdown flag and powered_on unchanged; a VBlank tick stores the poll_events
result (with Reset consumed to No), and powered_on is false exactly when that
result was Yes. -/
theorem shutdown_observed_only_at_vblank {M P J H : Type} (ops : NesOps M P J H)
    (showFps : Bool) (n : Nes M P J H) (m1 : M) (p1 : P) (j1 : J) (c : Nat)
    (hm : ops.machineTick n.machine n.ppu n.joypad = (m1, p1, j1, c)) :
    (Nes.tick ops showFps n).1.shutdown ≠ Shutdown.reset ∧
    (∀ (p2 : P) (ev : TickEvent),
      ops.ppuTick p1 (c * 3) = (p2, ev) →
      ev ≠ TickEvent.enteredVblank →
      n.shutdown ≠ Shutdown.reset →
      (Nes.tick ops showFps n).1.shutdown = n.shutdown ∧
      (Nes.tick ops showFps n).1.powered_on = n.powered_on ∧
      (∀ s, Effect.pollEvents s ∉ (Nes.tick ops showFps n).2)) ∧
    (∀ (p2 p3 : P) (h2 : H) (j2 : J) (sd : Shutdown),
      ops.ppuTick p1 (c * 3) = (p2, TickEvent.enteredVblank) →
      p3 = (if showFps then ops.drawFps p2 (n.timing.fps_avg (ops.elapsedMillis n.host))
            else p2) →
      ops.pollEvents (ops.render n.host p3) j1 = (h2, j2, sd) →
      ((Nes.tick ops showFps n).1.shutdown = if sd = Shutdown.reset then Shutdown.no else sd) ∧
      ((Nes.tick ops showFps n).1.powered_on = false ↔ sd = Shutdown.yes)) := by
  refine ⟨?_, ?_, ?_⟩
  · rcases hp : ops.ppuTick p1 (c * 3) with ⟨p2, ev⟩
    by_cases hev : ev = TickEvent.enteredVblank
    · subst hev
      rcases hpe : ops.pollEvents (ops.render n.host
          (if showFps then ops.drawFps p2 (n.timing.fps_avg (ops.elapsedMillis n.host)) else p2))
          j1 with ⟨h2, j2, sd⟩
      rw [tick_eq_vblank ops showFps n m1 p1 j1 c p2 _ h2 j2 sd hm hp rfl hpe]
      rcases sd <;> simp
    · rw [tick_eq_nonvblank ops showFps n m1 p1 j1 c p2 ev hm hp hev]
      rcases n.shutdown <;> simp
  · intro p2 ev hp hne hns
    rw [tick_eq_nonvblank ops showFps n m1 p1 j1 c p2 ev hm hp hne]
    refine ⟨by simp [hns], by simp [Nes.powered_on, hns], ?_⟩
    intro s
    cases ev <;> simp [hns]
  · intro p2 p3 h2 j2 sd hp hfps hpe
    rw [tick_eq_vblank ops showFps n m1 p1 j1 c p2 p3 h2 j2 sd hm hp hfps hpe]
    rcases sd <;> simp [Nes.powered_on]

theorem shutdown_observed_only_at_vblank_w :
    ((Nes.tick (demoOps TickEvent.nothing Shutdown.no) false nes0).1.shutdown ≠
      Shutdown.reset) ∧
    ((Nes.tick (demoOps TickEvent.nothing Shutdown.no) false nes0).1.shutdown = Shutdown.no ∧
     (Nes.tick (demoOps TickEvent.nothing Shutdown.no) false nes0).1.powered_on =
       nes0.powered_on ∧
     (∀ s, Effect.pollEvents s ∉
       (Nes.tick (demoOps TickEvent.nothing Shutdown.no) false nes0).2)) := by
  have h := shutdown_observed_only_at_vblank (demoOps TickEvent.nothing Shutdown.no) false nes0
    1 0 0 2 rfl
  exact ⟨h.1, h.2.1 6 TickEvent.nothing rfl (by simp) (by simp [nes0])⟩

/-- C7: when poll_events answers Reset during a VBlank tick, by the end of that
tick the CPU has been reset, the stored flag is back to No, and the machine
still reports powered_on. -/
theorem tick_reset_request {M P J H : Type} (ops : NesOps M P J H)
    (n : Nes M P J H) (m1 : M) (p1 : P) (j1 : J) (c : Nat) (p2 : P) (h2 : H) (j2 : J)
    (hm : ops.machineTick n.machine n.ppu n.joypad = (m1, p1, j1, c))
    (hp : ops.ppuTick p1 (c * 3) = (p2, TickEvent.enteredVblank))
    (hpe : ops.pollEvents (ops.render n.host p2) j1 = (h2, j2, Shutdown.reset)) :
    (∃ m', (Nes.tick ops false n).1.machine = ops.cpuReset m') ∧
    (Nes.tick ops false n).1.shutdown = Shutdown.no ∧
    (Nes.tick ops false n).1.powered_on = true ∧
    Effect.cpuReset ∈ (Nes.tick ops false n).2 := by
  rw [tick_eq_vblank ops false n m1 p1 j1 c p2 p2 h2 j2 Shutdown.reset hm hp (by simp) hpe]
  refine ⟨⟨if ops.nmiOnVblank p2 then ops.cpuNmi m1 else m1, ?_⟩, ?_, ?_, ?_⟩ <;>
    simp [Nes.powered_on]

theorem tick_reset_request_w :
    (∃ m', (Nes.tick (demoOps TickEvent.enteredVblank Shutdown.reset) false nes0).1.machine =
      (demoOps TickEvent.enteredVblank Shutdown.reset).cpuReset m') ∧
    (Nes.tick (demoOps TickEvent.enteredVblank Shutdown.reset) false nes0).1.shutdown =
      Shutdown.no ∧
    (Nes.tick (demoOps TickEvent.enteredVblank Shutdown.reset) false nes0).1.powered_on = true ∧
    Effect.cpuReset ∈ (Nes.tick (demoOps TickEvent.enteredVblank Shutdown.reset) false nes0).2 :=
  tick_reset_request (demoOps TickEvent.enteredVblank Shutdown.reset) nes0 1 0 0 2 6 5 0
    rfl rfl rfl

/-- C8: the synchronizer raises the CPU IRQ during a tick exactly when the PPU
event of that tick is TriggerIrq. -/
theorem tick_irq_iff_trigger {M P J H : Type} (ops : NesOps M P J H) (showFps : Bool)
    (n : Nes M P J H) (m1 : M) (p1 : P) (j1 : J) (c : Nat) (p2 : P) (ev : TickEvent)
    (hm : ops.machineTick n.machine n.ppu n.joypad = (m1, p1, j1, c))
    (hp : ops.ppuTick p1 (c * 3) = (p2, ev)) :
    Effect.irq ∈ (Nes.tick ops showFps n).2 ↔ ev = TickEvent.triggerIrq := by
  by_cases hev : ev = TickEvent.enteredVblank
  · subst hev
    rcases hpe : ops.pollEvents (ops.render n.host
        (if showFps then ops.drawFps p2 (n.timing.fps_avg (ops.elapsedMillis n.host)) else p2))
        j1 with ⟨h2, j2, sd⟩
    rw [tick_eq_vblank ops showFps n m1 p1 j1 c p2 _ h2 j2 sd hm hp rfl hpe]
    rcases hd : n.timing.post_render (ops.elapsedMillis h2) with _ | d <;>
      rcases showFps <;>
      rcases ops.nmiOnVblank
        (if false = true then ops.drawFps p2 (n.timing.fps_avg (ops.elapsedMillis n.host))
         else p2) <;>
      rcases sd <;> simp
  · rw [tick_eq_nonvblank ops showFps n m1 p1 j1 c p2 ev hm hp hev]
    cases ev <;> rcases hsd : n.shutdown <;> simp_all

theorem tick_irq_iff_trigger_w :
    Effect.irq ∈ (Nes.tick (demoOps TickEvent.triggerIrq Shutdown.no) false nes0).2 ↔
      TickEvent.triggerIrq = TickEvent.triggerIrq :=
  tick_irq_iff_trigger (demoOps TickEvent.triggerIrq Shutdown.no) false nes0 1 0 0 2 6
    TickEvent.triggerIrq rfl rfl

/-! ### Decimal rendering length facts and the trace-line format -/

theorem decList_eq_small (n : Nat) (h : n < 10) : decList n = [decChar n] := by
  rw [decList.eq_def]
  exact if_pos h

theorem decList_eq_large (n : Nat) (h : ¬ n < 10) :
    decList n = decList (n / 10) ++ [decChar (n % 10)] := by
  rw [decList.eq_def]
  exact if_neg h

theorem decList_length_pos (n : Nat) : 1 ≤ (decList n).length := by
  by_cases h : n < 10
  · simp [decList_eq_small n h]
  · rw [decList_eq_large n h]
    simp

theorem decList_length_le_two (n : Nat) (h : n < 100) : (decList n).length ≤ 2 := by
  by_cases h1 : n < 10
  · simp [decList_eq_small n h1]
  · rw [decList_eq_large n h1]
    have h2 : n / 10 < 10 := by omega
    simp [decList_eq_small _ h2]

theorem decList_length_ge_three (n : Nat) (h : 100 ≤ n) : 3 ≤ (decList n).length := by
  have h1 : ¬ n < 10 := by omega
  have h2 : ¬ n / 10 < 10 := by omega
  rw [decList_eq_large n h1, decList_eq_large _ h2]
  have := decList_length_pos (n / 10 / 10)
  simp
  omega

theorem rjustL_of_le (w : Nat) (s : List Char) (h : w ≤ s.length) : rjustL w s = s := by
  simp [rjustL, Nat.sub_eq_zero_of_le h]

/-- Comma-space followed by a width-2 field equals a bare comma followed by a
width-3 field whenever the rendered value takes at most two characters. -/
theorem comma_space_mid (d rest : List Char) (h : d.length ≤ 2) :
    ", ".toList ++ (rjustL 2 d ++ rest) = ",".toList ++ (rjustL 3 d ++ rest) := by
  have h3 : 3 - d.length = (2 - d.length) + 1 := by omega
  have hcs : ", ".toList = [',', ' '] := rfl
  have hc : ",".toList = [','] := rfl
  simp [rjustL, h3, List.replicate_succ, hcs, hc]

/-- C4: for every machine state the two-branch Debug formatter produces
exactly the single-shape nestest line of the spec, with both the scanline field and
the dot field right-justified to width 3. -/
theorem debug_line_matches_spec_format (s : NesDebugState) :
    nesDebugFmt s = nesDebugSpecFmt s := by
  unfold nesDebugFmt nesDebugLine nesDebugSpecFmt nesDebugLineL
  refine congrArg String.mk ?_
  by_cases h : s.ppuCycleRaw + 21 < 100
  · rw [if_pos h]
    have hlen : (decList (s.ppuCycleRaw + 21)).length ≤ 2 := decList_length_le_two _ (by omega)
    simp only [List.append_assoc]
    congr 2
    exact comma_space_mid _ _ hlen
  · rw [if_neg h]
    have hlen : 3 ≤ (decList (s.ppuCycleRaw + 21)).length := decList_length_ge_three _ (by omega)
    rw [rjustL_of_le 2 (decList (s.ppuCycleRaw + 21)) (by omega),
      rjustL_of_le 3 (decList (s.ppuCycleRaw + 21)) (by omega)]

/-- C9: immediately after Nes::insert the machine cycle counter is 7 and the
CPU is the freshly constructed CPU with reset applied; the Debug formatter
displays the dot as the internal PPU cycle plus 3 * 7. -/
theorem insert_startup_cycles {C P J H : Type} (ops : InsertOps C P J) (host : H) :
    (Nes.insert ops host).machine.cycles = 7 ∧
    (Nes.insert ops host).machine.cpu = ops.cpuReset ops.newCpu ∧
    (∀ s : NesDebugState,
      nesDebugFmt s =
        nesDebugLine s.pc s.a s.x s.y s.p s.sp s.scanline (s.ppuCycleRaw + 3 * 7) s.cycles) :=
  ⟨rfl, rfl, fun _ => rfl⟩

/-! ### Frame pacing: the scenario-6 stub host and the pacing laws -/

theorem usizeSub_add_right (b d : Nat) (hd : d < USIZE) : usizeSub (b + d) b = d := by
  simp only [usizeSub, USIZE] at *
  omega

theorem usizeSub_of_le (a b : Nat) (hba : b ≤ a) (ha : a < USIZE) : usizeSub a b = a - b := by
  simp only [usizeSub, USIZE] at *
  omega

/-- A stub tick with no prior frame timestamp: render and poll happen but no
delay is issued. -/
theorem stub_tick_first (m p j h fn : Nat) :
    Nes.tick stubOps false
      { machine := m, ppu := p, joypad := j, host := h,
        timing := { frame_n := fn, last_frame_timestamp := 0, frame_limit_ms := 16 },
        shutdown := Shutdown.no } =
      ({ machine := m + 1, ppu := p + 6, joypad := j, host := h + 5,
         timing := { frame_n := fn + 1, last_frame_timestamp := h + 5, frame_limit_ms := 16 },
         shutdown := Shutdown.no },
       [Effect.cpuTick 2, Effect.ppuTick 6, Effect.render, Effect.pollEvents Shutdown.no]) := by
  rw [tick_eq_vblank stubOps false
    { machine := m, ppu := p, joypad := j, host := h,
      timing := { frame_n := fn, last_frame_timestamp := 0, frame_limit_ms := 16 },
      shutdown := Shutdown.no }
    (m + 1) p j 2 (p + 6) (p + 6) (h + 5) j Shutdown.no rfl rfl (by simp) rfl]
  simp [FrameTiming.post_render, FrameTiming.post_delay, stubOps, demoOps]

/-- A stub tick whose previous frame finished 5 ms of wall clock ago issues a
delay of 16 - 5 = 11 ms after render and poll. -/
theorem stub_tick_later (m p j h fn l : Nat) (hl : l ≠ 0) (hs : usizeSub (h + 5) l = 5) :
    Nes.tick stubOps false
      { machine := m, ppu := p, joypad := j, host := h,
        timing := { frame_n := fn, last_frame_timestamp := l, frame_limit_ms := 16 },
        shutdown := Shutdown.no } =
      ({ machine := m + 1, ppu := p + 6, joypad := j, host := h + 5,
         timing := { frame_n := fn + 1, last_frame_timestamp := h + 5, frame_limit_ms := 16 },
         shutdown := Shutdown.no },
       [Effect.cpuTick 2, Effect.ppuTick 6, Effect.render, Effect.pollEvents Shutdown.no,
        Effect.delay 11]) := by
  rw [tick_eq_vblank stubOps false
    { machine := m, ppu := p, joypad := j, host := h,
      timing := { frame_n := fn, last_frame_timestamp := l, frame_limit_ms := 16 },
      shutdown := Shutdown.no }
    (m + 1) p j 2 (p + 6) (p + 6) (h + 5) j Shutdown.no rfl rfl (by simp) rfl]
  simp [FrameTiming.post_render, FrameTiming.post_delay, stubOps, demoOps, hl, hs]

/-- Closed form of the stub machine after k + 1 frames: the wall clock and the
stored frame timestamp both sit at 5 * (k + 1). -/
theorem stubNes_state (k : Nat) :
    stubNes (k + 1) =
      { machine := k + 1, ppu := 6 * (k + 1), joypad := 0, host := 5 * (k + 1),
        timing := { frame_n := k + 1, last_frame_timestamp := 5 * (k + 1),
                    frame_limit_ms := 16 },
        shutdown := Shutdown.no } := by
  induction k with
  | zero =>
    show (Nes.tick stubOps false nes0).1 = _
    rw [show nes0 =
      ({ machine := 0, ppu := 0, joypad := 0, host := 0,
         timing := { frame_n := 0, last_frame_timestamp := 0, frame_limit_ms := 16 },
         shutdown := Shutdown.no } : Nes Nat Nat Nat Nat) from rfl]
    rw [stub_tick_first 0 0 0 0 0]
  | succ k ih =>
    show (Nes.tick stubOps false (stubNes (k + 1))).1 = _
    rw [ih, stub_tick_later (k + 1) (6 * (k + 1)) 0 (5 * (k + 1)) (k + 1) (5 * (k + 1))
      (by omega) (usizeSub_add_right (5 * (k + 1)) 5 (by simp [USIZE]))]
    simp only [Nes.mk.injEq, FrameTiming.mk.injEq, eq_self_iff_true, and_true, true_and]
    omega

/-- C3 counterexample: in the scenario-6 stub the very first frame is handed
to the host with render but without any delay call, because no prior frame
timestamp exists yet; so a delay of 11 ms is not issued after every render. -/
theorem frame_pacing_first_frame_no_delay :
    Effect.render ∈ (Nes.tick stubOps false (stubNes 0)).2 ∧
    Effect.delay 11 ∉ (Nes.tick stubOps false (stubNes 0)).2 := by
  rw [show stubNes 0 =
    ({ machine := 0, ppu := 0, joypad := 0, host := 0,
       timing := { frame_n := 0, last_frame_timestamp := 0, frame_limit_ms := 16 },
       shutdown := Shutdown.no } : Nes Nat Nat Nat Nat) from rfl,
    stub_tick_first 0 0 0 0 0]
  simp

/-- C3 amended: the default target period is 1000 / 60 ms; whenever a prior
frame timestamp exists and the elapsed delta is below the target the core
delays exactly the remainder, otherwise it skips the delay; and in the 5 ms
stub scenario every frame after the first is followed by a delay of 11 ms. -/
theorem frame_pacing_amended :
    FrameTiming.new.frame_limit_ms = 1000 / 60 ∧
    (∀ (t : FrameTiming) (e : Nat),
      t.last_frame_timestamp ≠ 0 → t.last_frame_timestamp ≤ e → e < USIZE →
      t.post_render e =
        if e - t.last_frame_timestamp < t.frame_limit_ms then
          some (t.frame_limit_ms - (e - t.last_frame_timestamp))
        else none) ∧
    (∀ k, Effect.delay 11 ∈ (Nes.tick stubOps false (stubNes (k + 1))).2) := by
  refine ⟨rfl, ?_, ?_⟩
  · intro t e h0 hle hU
    simp only [FrameTiming.post_render, if_pos h0,
      usizeSub_of_le e t.last_frame_timestamp hle hU]
  · intro k
    rw [stubNes_state k, stub_tick_later (k + 1) (6 * (k + 1)) 0 (5 * (k + 1)) (k + 1)
      (5 * (k + 1)) (by omega) (usizeSub_add_right (5 * (k + 1)) 5 (by simp [USIZE]))]
    simp

theorem frame_pacing_amended_w :
    FrameTiming.post_render
      { frame_n := 0, last_frame_timestamp := 5, frame_limit_ms := 16 } 10 = some 11 ∧
    Effect.delay 11 ∈ (Nes.tick stubOps false (stubNes 1)).2 := by
  refine ⟨?_, frame_pacing_amended.2.2 0⟩
  have h2 := frame_pacing_amended.2.1
    { frame_n := 0, last_frame_timestamp := 5, frame_limit_ms := 16 } 10
    (by norm_num) (by norm_num) (by norm_num [USIZE])
  simpa using h2

/-! ### The Pong bus: ROM writes and display-port totality -/

def pongBus0 : PongBus :=
  { ram := fun _ => 0, display := DisplayBuffer.new, rom := { rom := fun _ => 0 } }

/-- C5 counterexample: a write to the first ROM address of the Pong bus is a
Rust panic (modelled as none), not a logged and ignored no-op; the program
terminates. -/
theorem pong_rom_write_panics : PongBus.write8 pongBus0 1 0xA580 = none := rfl

/-- C5 amended: in the Pong demo a write to any address of the read-only ROM
window 0xA580 to 0xFFFF is fatal: the bus panics, and in particular the ROM
contents are never altered. -/
theorem pong_rom_write_fatal (b : PongBus) (val a : Nat)
    (h1 : 0xA580 ≤ a) (h2 : a ≤ 0xFFFF) :
    PongBus.write8 b val a = none := by
  have hx : ¬ a ≤ 0x7FFF := by omega
  have hy : ¬ a ≤ 0xA57F := by omega
  simp [PongBus.write8, PongBus.map_address, hx, hy]

theorem pong_rom_write_fatal_w : PongBus.write8 pongBus0 1 0xFFFF = none :=
  pong_rom_write_fatal pongBus0 1 0xFFFF (by norm_num) (by norm_num)

/-- C10: the display interface of the Pong demo is not total: a Draw command
whose port coordinates index beyond the 240 x 192 buffer panics, a command
port value above 3 panics, reading the display buffer always panics, and any
bus read of the display window panics. -/
theorem pong_display_interface_partial (d : DisplayBuffer) (v : Nat) :
    (240 * 192 ≤ d.port_y * 240 + d.port_x → DisplayBuffer.write8 d 1 3 = none) ∧
    (4 ≤ v → DisplayBuffer.write8 d v 3 = none) ∧
    (∀ a, DisplayBuffer.read8 d a = none) ∧
    (∀ (b : PongBus) (a : Nat), 0x8000 ≤ a → a ≤ 0xA57F → PongBus.read8 b a = none) := by
  refine ⟨?_, ?_, fun _ => rfl, ?_⟩
  · intro hge
    have hlt : ¬ (d.port_y * WIDTH + d.port_x < WIDTH * HEIGHT) := by
      simp only [WIDTH, HEIGHT]
      omega
    simp [DisplayBuffer.write8, DisplayPort.from_u16, DisplayCommand.from_u8,
      DisplayBuffer.draw, hlt]
  · intro hv
    obtain ⟨w, rfl⟩ : ∃ w, v = w + 4 := ⟨v - 4, by omega⟩
    have hcmd : DisplayCommand.from_u8 (w + 4) = none := rfl
    simp [DisplayBuffer.write8, DisplayPort.from_u16, hcmd]
  · intro b a h1 h2
    have hx : ¬ a ≤ 0x7FFF := by omega
    have hy : a ≤ 0xA57F := by omega
    simp [PongBus.read8, PongBus.map_address, DisplayBuffer.read8, hx, hy]

theorem pong_display_interface_partial_w :
    DisplayBuffer.write8
      { DisplayBuffer.new with port_x := 240, port_y := 191 } 1 3 = none ∧
    DisplayBuffer.write8 DisplayBuffer.new 4 3 = none ∧
    DisplayBuffer.read8 DisplayBuffer.new 0 = none ∧
    PongBus.read8 pongBus0 0x8000 = none := by
  have h1 := pong_display_interface_partial
    { DisplayBuffer.new with port_x := 240, port_y := 191 } 4
  have h2 := pong_display_interface_partial DisplayBuffer.new 4
  exact ⟨h1.1 (by norm_num [DisplayBuffer.new]), h2.2.1 (by norm_num), h2.2.2.1 0,
    h2.2.2.2 pongBus0 0x8000 (by norm_num) (by norm_num)⟩
